import Mathlib

/-!
Verification of the CKN edge daemon (`components/examples/daemon.py`).

The daemon is a single linear script: configure logging, probe the Kafka
broker with a bounded retry loop, load one event from a JSON file, stamp three
timestamp fields, normalize one field, and publish the JSON-encoded event to a
single topic.  We embed each function of the script shallowly: external
effects (the broker attempts, the filesystem, the clock, the delivery
callback) become explicit parameters, and each function additionally returns a
trace of the observable steps it performs (attempts, sleeps, log lines,
produce/flush calls), so that ordering and exit-code claims can be stated.
-/

namespace CknDaemon

/-- JSON values as loaded by Python's `json.load` and serialized by
`json.dumps`.  Numbers are modelled as integers (the example event's numeric
fields are integers; no claim depends on float formatting).  Objects are
insertion-ordered key/value lists, matching Python `dict` semantics. -/
inductive Json where
  | null
  | bool (b : Bool)
  | num (n : Int)
  | str (s : String)
  | arr (elems : List Json)
  | obj (pairs : List (String × Json))

/-- Hexadecimal digit, lowercase, as produced by Python's `\uXXXX` escapes. -/
def hexDigit (n : Nat) : Char :=
  if n < 10 then Char.ofNat (48 + n) else Char.ofNat (87 + n)

/-- Four-digit lowercase hex rendering of `n < 0x10000`. -/
def toHex4 (n : Nat) : String :=
  String.mk [hexDigit (n / 4096 % 16), hexDigit (n / 256 % 16),
             hexDigit (n / 16 % 16), hexDigit (n % 16)]

/-- Escape one character the way Python `json.dumps` (default
`ensure_ascii=True`) does: `"` and `\` and the short control escapes get a
backslash form, every other character outside printable ASCII `0x20`–`0x7e`
becomes `\uXXXX` (a surrogate pair above `0xffff`), and printable ASCII is
emitted verbatim. -/
def escapeChar (c : Char) : String :=
  if c = Char.ofNat 34 then "\\\""
  else if c = Char.ofNat 92 then "\\\\"
  else if c = Char.ofNat 10 then "\\n"
  else if c = Char.ofNat 13 then "\\r"
  else if c = Char.ofNat 9 then "\\t"
  else if c = Char.ofNat 8 then "\\b"
  else if c = Char.ofNat 12 then "\\f"
  else if 32 ≤ c.toNat ∧ c.toNat ≤ 126 then String.singleton c
  else if c.toNat ≤ 65535 then "\\u" ++ toHex4 c.toNat
  else
    "\\u" ++ toHex4 (55296 + (c.toNat - 65536) / 1024) ++
    "\\u" ++ toHex4 (56320 + (c.toNat - 65536) % 1024)

/-- Body of a Python JSON string literal: each character escaped. -/
def escapeString (s : String) : String :=
  String.join (s.toList.map escapeChar)

mutual

/-- Python `json.dumps` with its default separators `", "` and `": "`. -/
def dumps : Json → String
  | Json.null => "null"
  | Json.bool true => "true"
  | Json.bool false => "false"
  | Json.num n => toString n
  | Json.str s => "\"" ++ escapeString s ++ "\""
  | Json.arr elems => "[" ++ dumpsList elems ++ "]"
  | Json.obj pairs => "\x7b" ++ dumpsObj pairs ++ "\x7d"

/-- Comma-separated rendering of a JSON array's elements. -/
def dumpsList : List Json → String
  | [] => ""
  | [x] => dumps x
  | x :: y :: rest => dumps x ++ ", " ++ dumpsList (y :: rest)

/-- Comma-separated rendering of a JSON object's entries. -/
def dumpsObj : List (String × Json) → String
  | [] => ""
  | [(k, v)] => "\"" ++ escapeString k ++ "\": " ++ dumps v
  | (k, v) :: p :: rest =>
    "\"" ++ escapeString k ++ "\": " ++ dumps v ++ ", " ++ dumpsObj (p :: rest)

end

/-- Lookup in a Python dict modelled as an insertion-ordered list:
`event[key]` read. -/
def getKey : List (String × Json) → String → Option Json
  | [], _ => none
  | (k, v) :: rest, key => if k = key then some v else getKey rest key

/-- Assignment `event[key] = v` on a Python dict: an existing key keeps its
position and gets the new value, a new key is appended at the end. -/
def setKey : List (String × Json) → String → Json → List (String × Json)
  | [], key, v => [(key, v)]
  | (k, w) :: rest, key, v =>
    if k = key then (k, v) :: rest else (k, w) :: setKey rest key v

/-- Reading a key on a JSON value: defined only on objects. -/
def Json.get : Json → String → Option Json
  | Json.obj pairs, key => getKey pairs key
  | _, _ => none

theorem getKey_setKey_self (l : List (String × Json)) (key : String) (v : Json) :
    getKey (setKey l key v) key = some v := by
  induction l with
  | nil => simp [getKey, setKey]
  | cons p rest ih =>
    obtain ⟨k, w⟩ := p
    by_cases h : k = key
    · simp [getKey, setKey, h]
    · simp [getKey, setKey, h, ih]

theorem getKey_setKey_ne (l : List (String × Json)) (key key' : String) (v : Json)
    (h : key ≠ key') : getKey (setKey l key v) key' = getKey l key' := by
  induction l with
  | nil => simp [getKey, setKey, h]
  | cons p rest ih =>
    obtain ⟨k, w⟩ := p
    by_cases hk : k = key
    · subst hk
      simp [getKey, setKey, h]
    · by_cases hk' : k = key'
      · simp [getKey, setKey, hk, hk', Ne.symm h]
      · simp [getKey, setKey, hk, hk', ih]

/-- `os.getenv(key, default)`: the environment is a partial map. -/
def getenv (env : String → Option String) (key dflt : String) : String :=
  (env key).getD dflt

/-- `CKN_LOG_FILE = os.getenv('CKN_LOG_FILE', 'ckn_example.log')`. -/
def CKN_LOG_FILE (env : String → Option String) : String :=
  getenv env "CKN_LOG_FILE" "ckn_example.log"

/-- `KAFKA_BROKER = os.getenv('CKN_KAFKA_BROKER', 'broker:29092')`. -/
def KAFKA_BROKER (env : String → Option String) : String :=
  getenv env "CKN_KAFKA_BROKER" "broker:29092"

/-- `KAFKA_TOPIC = os.getenv('CKN_KAFKA_TOPIC', 'oracle-events')`. -/
def KAFKA_TOPIC (env : String → Option String) : String :=
  getenv env "CKN_KAFKA_TOPIC" "oracle-events"

/-! ### Logging configuration (`setup_logging`) -/

/-- The two console streams a Python `logging.StreamHandler` can write to. -/
inductive PyStream where
  | stdout
  | stderr
deriving DecidableEq

/-- Where a logging handler sends its records. -/
inductive Sink where
  | file (path : String)
  | stream (s : PyStream)
deriving DecidableEq

/-- Python `logging` numeric level `DEBUG`. -/
def DEBUG : Nat := 10

/-- Python `logging` numeric level `INFO`. -/
def INFO : Nat := 20

/-- A configured logging handler: its sink and its threshold level. -/
structure Handler where
  sink : Sink
  level : Nat
deriving DecidableEq

/-- Models Python's `logging.StreamHandler(stream=None)`: when no stream is
passed, the handler writes to `sys.stderr` (CPython documented default). -/
def StreamHandler (stream : Option PyStream) : Sink :=
  Sink.stream (stream.getD PyStream.stderr)

/-- Models Python's `logging.FileHandler(path)`: the handler writes to the
named file. -/
def FileHandler (path : String) : Sink :=
  Sink.file path

/-- Root logger configuration produced by `setup_logging`. -/
structure LoggingConfig where
  rootLevel : Nat
  handlers : List Handler
deriving DecidableEq

/-- `setup_logging()`: root logger at `DEBUG`, a `FileHandler(CKN_LOG_FILE)`
at `INFO`, and a `StreamHandler()` (no stream argument) at `INFO`, added in
that order. -/
def setup_logging (env : String → Option String) : LoggingConfig :=
  ⟨DEBUG, [⟨FileHandler (CKN_LOG_FILE env), INFO⟩, ⟨StreamHandler none, INFO⟩]⟩

/-! ### Broker reachability probe (`test_ckn_broker_connection`)

An attempt `i` abstracts the try-block body: constructing the `AdminClient`
and calling `list_topics(timeout=timeout)`.  `outcomes i = true` means attempt
`i` returns normally; `outcomes i = false` means it raises an exception, which
the function catches.  The trace records every observable step of the loop. -/

/-- Observable steps of the probe loop. -/
inductive ProbeEvent where
  /-- Attempt `i` (an `AdminClient`/`list_topics` call with per-attempt
  timeout `timeoutSecs`) succeeded or raised. -/
  | attempt (i : Nat) (timeoutSecs : Nat) (ok : Bool)
  /-- `logging.info("CKN broker not available yet: ... Retrying in 5 seconds...")`. -/
  | logRetry
  /-- `time.sleep(secs)`. -/
  | sleep (secs : Nat)
  /-- `logging.error("Could not connect to the CKN broker...")`. -/
  | logFailure
deriving DecidableEq

/-- The `for i in range(num_tries)` loop: `i` is the current attempt index,
the second argument the number of attempts remaining.  On success the function
returns `True` at once; on an exception it logs, sleeps 5 seconds, and goes
round again; when the range is exhausted it logs an error and returns
`False`. -/
def probeLoop (outcomes : Nat → Bool) (timeout : Nat) :
    Nat → Nat → Bool × List ProbeEvent
  | _, 0 => (false, [ProbeEvent.logFailure])
  | i, rem + 1 =>
    if outcomes i then
      (true, [ProbeEvent.attempt i timeout true])
    else
      let rest := probeLoop outcomes timeout (i + 1) rem
      (rest.1, ProbeEvent.attempt i timeout false :: ProbeEvent.logRetry ::
        ProbeEvent.sleep 5 :: rest.2)

/-- `test_ckn_broker_connection(bootstrap_servers, timeout=10, num_tries=5)`.
The broker address only routes which attempts happen, so it is absorbed into
`outcomes`; the result is the returned boolean together with the trace. -/
def test_ckn_broker_connection (outcomes : Nat → Bool) (timeout num_tries : Nat) :
    Bool × List ProbeEvent :=
  probeLoop outcomes timeout 0 num_tries

/-- Number of connection attempts recorded in a probe trace. -/
def countAttempts : List ProbeEvent → Nat
  | [] => 0
  | ProbeEvent.attempt _ _ _ :: rest => countAttempts rest + 1
  | _ :: rest => countAttempts rest

/-- Number of failed connection attempts recorded in a probe trace. -/
def countFailedAttempts : List ProbeEvent → Nat
  | [] => 0
  | ProbeEvent.attempt _ _ false :: rest => countFailedAttempts rest + 1
  | _ :: rest => countFailedAttempts rest

/-- Number of `time.sleep` calls recorded in a probe trace. -/
def countSleeps : List ProbeEvent → Nat
  | [] => 0
  | ProbeEvent.sleep _ :: rest => countSleeps rest + 1
  | _ :: rest => countSleeps rest

/-- Number of retry log lines recorded in a probe trace. -/
def countRetryLogs : List ProbeEvent → Nat
  | [] => 0
  | ProbeEvent.logRetry :: rest => countRetryLogs rest + 1
  | _ :: rest => countRetryLogs rest

/-- Is a probe event a connection attempt? -/
def isAttempt : ProbeEvent → Bool
  | ProbeEvent.attempt _ _ _ => true
  | _ => false

/-- The part of a probe trace strictly after its last connection attempt. -/
def tailAfterLastAttempt (tr : List ProbeEvent) : List ProbeEvent :=
  (tr.reverse.takeWhile (fun e => !isAttempt e)).reverse

/-! ### Event loader (`read_event_from_file`) -/

/-- What `open(file_path, 'r')` finds: either the file is absent
(`FileNotFoundError`) or it has some textual content. -/
inductive FileResult where
  | absent
  | content (s : String)
deriving DecidableEq

/-- The error lines `read_event_from_file` can log. -/
inductive ReadLog where
  /-- `logging.error(f"Event file not found: ...")`. -/
  | fileNotFound (path : String)
  /-- `logging.error(f"Invalid JSON in event file: ...")`. -/
  | invalidJson (path : String)
deriving DecidableEq

/-- `read_event_from_file(file_path)`: open the file and `json.load` it.  The
filesystem is the map `fs`; `parse` is `json.load` on a string, `none`
modelling `json.JSONDecodeError`.  Returns the parsed event (or `none` on
either failure) together with the error line logged, if any. -/
def read_event_from_file (fs : String → FileResult) (parse : String → Option Json)
    (file_path : String) : Option Json × Option ReadLog :=
  match fs file_path with
  | FileResult.absent => (none, some (ReadLog.fileNotFound file_path))
  | FileResult.content s =>
    match parse s with
    | none => (none, some (ReadLog.invalidJson file_path))
    | some j => (some j, none)

/-! ### Delivery callback (`delivery_report`) -/

/-- The log line issued by the delivery callback. -/
inductive DeliveryLog where
  /-- `logging.error("Delivery failed: %s", err)`. -/
  | deliveryFailed (err : String)
  /-- `logging.info("Produced example event to '%s' topic", msg.topic())`. -/
  | producedTo (topic : String)
deriving DecidableEq

/-- `delivery_report(err, msg)`: logs the failure when `err` is not `None`,
otherwise logs success with the message's topic.  Its only observable effect
is the log line. -/
def delivery_report (err : Option String) (topic : String) : DeliveryLog :=
  match err with
  | some e => DeliveryLog.deliveryFailed e
  | none => DeliveryLog.producedTo topic

/-! ### Event transformer and main flow (`__main__`) -/

/-- Uncaught Python exceptions the `__main__` transformation step can raise. -/
inductive PyErr where
  /-- `TypeError`: subscript assignment or lookup on a non-dict event. -/
  | typeError
  /-- `KeyError`: `event['flattened_scores']` on a dict without that key. -/
  | keyError
deriving DecidableEq

/-- The timestamp/field mutation block of `__main__` (lines 99–107): set the
three timestamp fields to `f"{current_timestamp}Z"`, then replace
`flattened_scores` by its `json.dumps` encoding when it is a list.
`current_timestamp` is the string `datetime.utcnow().isoformat()` read once
before the block.  On a non-dict event the subscript assignment raises
`TypeError`; on a dict without `'flattened_scores'` the lookup raises
`KeyError`. -/
def transform (current_timestamp : String) (event : Json) : Except PyErr Json :=
  match event with
  | Json.obj pairs =>
    let p1 := setKey pairs "image_receiving_timestamp"
      (Json.str (current_timestamp ++ "Z"))
    let p2 := setKey p1 "image_scoring_timestamp"
      (Json.str (current_timestamp ++ "Z"))
    let p3 := setKey p2 "image_store_delete_time"
      (Json.str (current_timestamp ++ "Z"))
    match getKey p3 "flattened_scores" with
    | none => Except.error PyErr.keyError
    | some (Json.arr elems) =>
      Except.ok (Json.obj (setKey p3 "flattened_scores"
        (Json.str (dumps (Json.arr elems)))))
    | some _ => Except.ok (Json.obj p3)
  | _ => Except.error PyErr.typeError

/-- Observable steps of the `__main__` block. -/
inductive MainStep where
  /-- The broker probe ran and returned this boolean. -/
  | probeDone (ok : Bool)
  /-- `read_event_from_file("/app/event.json")` was called. -/
  | readFile (path : String)
  /-- `producer.produce(KAFKA_TOPIC, json.dumps(event), callback=...)`. -/
  | produce (topic : String) (payload : String)
  /-- `producer.flush(timeout=1)`. -/
  | flushCall (timeoutSecs : Nat)
  /-- The delivery callback fired during the flush and logged this line. -/
  | cb (l : DeliveryLog)
deriving DecidableEq

/-- How the process terminates. -/
inductive MainOutcome where
  /-- `sys.exit(code)`, or natural end of the script (code 0). -/
  | exited (code : Nat)
  /-- An uncaught exception escaped, aborting the script. -/
  | crashed (e : PyErr)
deriving DecidableEq

/-- The `__main__` block.  Inputs are the external world: the environment,
the per-attempt broker outcomes, the filesystem, the JSON parser, the clock
reading, whether the delivery callback fires before the 1-second flush
timeout (`cbFires`), and the delivery error it reports (`deliveryErr`).
Returns the process outcome and the trace of observable steps.

The `if event is None` check fires in two cases that Python cannot tell
apart: the loader caught an exception and returned its `None` sentinel, or
the file's content is the valid JSON document `null`, which `json.load` maps
to that same `None`.  Both are logged as a read failure and exit 1. -/
def daemon_main (env : String → Option String) (outcomes : Nat → Bool)
    (fs : String → FileResult) (parse : String → Option Json)
    (current_timestamp : String) (cbFires : Bool) (deliveryErr : Option String) :
    MainOutcome × List MainStep :=
  let probe := test_ckn_broker_connection outcomes 10 5
  if probe.1 = false then
    (MainOutcome.exited 1, [MainStep.probeDone false])
  else
    match read_event_from_file fs parse "/app/event.json" with
    | (none, _) =>
      (MainOutcome.exited 1,
        [MainStep.probeDone true, MainStep.readFile "/app/event.json"])
    | (some Json.null, _) =>
      (MainOutcome.exited 1,
        [MainStep.probeDone true, MainStep.readFile "/app/event.json"])
    | (some event, _) =>
      match transform current_timestamp event with
      | Except.error e =>
        (MainOutcome.crashed e,
          [MainStep.probeDone true, MainStep.readFile "/app/event.json"])
      | Except.ok event' =>
        (MainOutcome.exited 0,
          [MainStep.probeDone true, MainStep.readFile "/app/event.json",
           MainStep.produce (KAFKA_TOPIC env) (dumps event'),
           MainStep.flushCall 1] ++
          (if cbFires then
            [MainStep.cb (delivery_report deliveryErr (KAFKA_TOPIC env))]
          else []))

/-- The probe trace when every attempt in the window fails: each failed
attempt is followed by the retry log line and a 5-second sleep — including
the final attempt — and the error line closes the trace. -/
def allFailTrace (timeout : Nat) : Nat → Nat → List ProbeEvent
  | _, 0 => [ProbeEvent.logFailure]
  | i, n + 1 => ProbeEvent.attempt i timeout false :: ProbeEvent.logRetry ::
      ProbeEvent.sleep 5 :: allFailTrace timeout (i + 1) n

theorem probeLoop_true_iff (outcomes : Nat → Bool) (t rem : Nat) :
    ∀ i, ((probeLoop outcomes t i rem).1 = true ↔
      ∃ k, k < rem ∧ outcomes (i + k) = true) := by
  induction rem with
  | zero => intro i; simp [probeLoop]
  | succ n ih =>
    intro i
    cases h0 : outcomes i with
    | true =>
      simp only [probeLoop, h0, if_true]
      exact iff_of_true trivial ⟨0, Nat.succ_pos n, by rwa [Nat.add_zero]⟩
    | false =>
      simp only [probeLoop, h0, Bool.false_eq_true, if_false]
      rw [ih (i + 1)]
      constructor
      · rintro ⟨k, hk, hout⟩
        refine ⟨k + 1, Nat.succ_lt_succ hk, ?_⟩
        rw [show i + (k + 1) = i + 1 + k by omega]
        exact hout
      · rintro ⟨k, hk, hout⟩
        cases k with
        | zero =>
          rw [Nat.add_zero, h0] at hout
          simp at hout
        | succ m =>
          refine ⟨m, by omega, ?_⟩
          rw [show i + 1 + m = i + (m + 1) by omega]
          exact hout

theorem probeLoop_sleep_counts (outcomes : Nat → Bool) (t rem : Nat) :
    ∀ i, countSleeps (probeLoop outcomes t i rem).2 =
        countFailedAttempts (probeLoop outcomes t i rem).2 ∧
      countRetryLogs (probeLoop outcomes t i rem).2 =
        countFailedAttempts (probeLoop outcomes t i rem).2 := by
  induction rem with
  | zero =>
    intro i
    simp [probeLoop, countSleeps, countFailedAttempts, countRetryLogs]
  | succ n ih =>
    intro i
    cases h0 : outcomes i with
    | true =>
      simp [probeLoop, h0, countSleeps, countFailedAttempts, countRetryLogs]
    | false =>
      have hrec := ih (i + 1)
      simp [probeLoop, h0, countSleeps, countFailedAttempts, countRetryLogs,
        hrec.1, hrec.2]

theorem probeLoop_attempts_all_fail (outcomes : Nat → Bool) (t rem : Nat) :
    ∀ i, (∀ k, k < rem → outcomes (i + k) = false) →
      (probeLoop outcomes t i rem).1 = false ∧
      countAttempts (probeLoop outcomes t i rem).2 = rem := by
  induction rem with
  | zero => intro i _; simp [probeLoop, countAttempts]
  | succ n ih =>
    intro i h
    have h0 : outcomes i = false := by
      have := h 0 (Nat.succ_pos n)
      rwa [Nat.add_zero] at this
    have hrec := ih (i + 1) (fun k hk => by
      rw [show i + 1 + k = i + (k + 1) by omega]
      exact h (k + 1) (by omega))
    simp [probeLoop, h0, countAttempts, hrec.1, hrec.2]

theorem probeLoop_first_success (outcomes : Nat → Bool) (t rem : Nat) :
    ∀ i j, j < rem → outcomes (i + j) = true →
      (∀ k, k < j → outcomes (i + k) = false) →
      countAttempts (probeLoop outcomes t i rem).2 = j + 1 := by
  induction rem with
  | zero => intro i j hj _ _; omega
  | succ n ih =>
    intro i j hj hsucc hfail
    cases h0 : outcomes i with
    | true =>
      have hj0 : j = 0 := by
        by_contra hne
        have hf := hfail 0 (Nat.pos_of_ne_zero hne)
        rw [Nat.add_zero, h0] at hf
        simp at hf
      subst hj0
      simp [probeLoop, h0, countAttempts]
    | false =>
      cases j with
      | zero =>
        rw [Nat.add_zero, h0] at hsucc
        simp at hsucc
      | succ m =>
        have hrec := ih (i + 1) m (by omega)
          (by rw [show i + 1 + m = i + (m + 1) by omega]; exact hsucc)
          (fun k hk => by
            rw [show i + 1 + k = i + (k + 1) by omega]
            exact hfail (k + 1) (by omega))
        simp [probeLoop, h0, countAttempts, hrec]

theorem probeLoop_all_fail_trace (outcomes : Nat → Bool) (t rem : Nat) :
    ∀ i, (∀ k, k < rem → outcomes (i + k) = false) →
      (probeLoop outcomes t i rem).2 = allFailTrace t i rem := by
  induction rem with
  | zero => intro i _; rfl
  | succ n ih =>
    intro i h
    have h0 : outcomes i = false := by
      have := h 0 (Nat.succ_pos n)
      rwa [Nat.add_zero] at this
    have hrec := ih (i + 1) (fun k hk => by
      rw [show i + 1 + k = i + (k + 1) by omega]
      exact h (k + 1) (by omega))
    simp [probeLoop, h0, allFailTrace, hrec]

/-- Claim C1: the broker probe never raises — each failed attempt is caught
and logged (exactly one retry log line per failed attempt) — it returns
`True` exactly when some attempt among the `num_tries` succeeds, it stops at
the first successful attempt (making `j + 1` attempts when attempt `j` is the
first success), and it returns `False` after making all `num_tries` attempts
when every one fails. -/
theorem test_ckn_broker_connection_spec (outcomes : Nat → Bool)
    (timeout num_tries j : Nat) :
    ((test_ckn_broker_connection outcomes timeout num_tries).1 = true ↔
      ∃ i, i < num_tries ∧ outcomes i = true)
    ∧ (j < num_tries → outcomes j = true →
      (∀ i, i < j → outcomes i = false) →
      countAttempts (test_ckn_broker_connection outcomes timeout num_tries).2 = j + 1)
    ∧ ((∀ i, i < num_tries → outcomes i = false) →
      (test_ckn_broker_connection outcomes timeout num_tries).1 = false ∧
      countAttempts (test_ckn_broker_connection outcomes timeout num_tries).2 = num_tries)
    ∧ countRetryLogs (test_ckn_broker_connection outcomes timeout num_tries).2 =
      countFailedAttempts (test_ckn_broker_connection outcomes timeout num_tries).2 := by
  refine ⟨?_, ?_, ?_, ?_⟩
  · have h := probeLoop_true_iff outcomes timeout num_tries 0
    simpa [test_ckn_broker_connection] using h
  · intro hj hs hf
    exact probeLoop_first_success outcomes timeout num_tries 0 j hj
      (by simpa using hs) (fun k hk => by simpa using hf k hk)
  · intro hall
    exact probeLoop_attempts_all_fail outcomes timeout num_tries 0
      (fun k hk => by simpa using hall k hk)
  · exact (probeLoop_sleep_counts outcomes timeout num_tries 0).2

/-- Witness for C1: with attempts 0 and 1 failing and attempt 2 succeeding
(success on the 3rd of 5 attempts), the probe returns `True` after exactly 3
attempts. -/
theorem test_ckn_broker_connection_spec_witness :
    (test_ckn_broker_connection (fun i => decide (i = 2)) 10 5).1 = true ∧
    countAttempts (test_ckn_broker_connection (fun i => decide (i = 2)) 10 5).2 = 3 := by
  have h := test_ckn_broker_connection_spec (fun i => decide (i = 2)) 10 5 2
  exact ⟨h.1.mpr ⟨2, by decide, by decide⟩, h.2.1 (by decide) (by decide) (by decide)⟩

/-- Counterexample to claim C8 as stated: in an all-failure run the part of
the probe trace strictly after the final connection attempt still contains a
5-second sleep — the function does not report failure without a further
delay. -/
theorem probe_delay_after_last_attempt_cex :
    ProbeEvent.sleep 5 ∈
      tailAfterLastAttempt (test_ckn_broker_connection (fun _ => false) 10 5).2 := by
  decide

/-- Claim C8 (amended): the fixed 5-second delay is taken after every failed
attempt — the sleep count equals the failed-attempt count — and in an
all-failure run the trace is `allFailTrace`, in which the final failed
attempt is also followed by a retry log and a 5-second sleep before the
failure is reported. -/
theorem probe_sleep_every_failure (outcomes : Nat → Bool) (timeout num_tries : Nat) :
    countSleeps (test_ckn_broker_connection outcomes timeout num_tries).2 =
      countFailedAttempts (test_ckn_broker_connection outcomes timeout num_tries).2
    ∧ ((∀ i, i < num_tries → outcomes i = false) →
      (test_ckn_broker_connection outcomes timeout num_tries).2 =
        allFailTrace timeout 0 num_tries) := by
  refine ⟨(probeLoop_sleep_counts outcomes timeout num_tries 0).1, fun h => ?_⟩
  exact probeLoop_all_fail_trace outcomes timeout num_tries 0
    (fun k hk => by simpa using h k hk)

/-- Witness for the amended C8: a concrete 2-attempt all-failure run produces
exactly the `allFailTrace` shape. -/
theorem probe_sleep_every_failure_witness :
    (test_ckn_broker_connection (fun _ => false) 10 2).2 = allFailTrace 10 0 2 :=
  (probe_sleep_every_failure (fun _ => false) 10 2).2 (by decide)

theorem transform_typeError (ct : String) (j : Json)
    (h : ∀ pairs, j ≠ Json.obj pairs) :
    transform ct j = Except.error PyErr.typeError := by
  cases j with
  | obj pairs => exact absurd rfl (h pairs)
  | null => rfl
  | bool b => rfl
  | num n => rfl
  | str s => rfl
  | arr elems => rfl

theorem getKey_stamped (pairs : List (String × Json)) (v1 v2 v3 : Json) (k : String)
    (h1 : k ≠ "image_receiving_timestamp") (h2 : k ≠ "image_scoring_timestamp")
    (h3 : k ≠ "image_store_delete_time") :
    getKey (setKey (setKey (setKey pairs "image_receiving_timestamp" v1)
        "image_scoring_timestamp" v2) "image_store_delete_time" v3) k =
      getKey pairs k := by
  rw [getKey_setKey_ne _ _ _ _ (Ne.symm h3), getKey_setKey_ne _ _ _ _ (Ne.symm h2),
    getKey_setKey_ne _ _ _ _ (Ne.symm h1)]

theorem getKey_stamped_fields (ct : String) (pairs : List (String × Json)) :
    getKey (setKey (setKey (setKey pairs "image_receiving_timestamp"
        (Json.str (ct ++ "Z"))) "image_scoring_timestamp" (Json.str (ct ++ "Z")))
        "image_store_delete_time" (Json.str (ct ++ "Z")))
        "image_receiving_timestamp" = some (Json.str (ct ++ "Z")) ∧
    getKey (setKey (setKey (setKey pairs "image_receiving_timestamp"
        (Json.str (ct ++ "Z"))) "image_scoring_timestamp" (Json.str (ct ++ "Z")))
        "image_store_delete_time" (Json.str (ct ++ "Z")))
        "image_scoring_timestamp" = some (Json.str (ct ++ "Z")) ∧
    getKey (setKey (setKey (setKey pairs "image_receiving_timestamp"
        (Json.str (ct ++ "Z"))) "image_scoring_timestamp" (Json.str (ct ++ "Z")))
        "image_store_delete_time" (Json.str (ct ++ "Z")))
        "image_store_delete_time" = some (Json.str (ct ++ "Z")) := by
  refine ⟨?_, ?_, ?_⟩
  · rw [getKey_setKey_ne _ _ _ _ (by decide), getKey_setKey_ne _ _ _ _ (by decide),
      getKey_setKey_self]
  · rw [getKey_setKey_ne _ _ _ _ (by decide), getKey_setKey_self]
  · rw [getKey_setKey_self]

theorem transform_keyError (ct : String) (pairs : List (String × Json))
    (h : getKey pairs "flattened_scores" = none) :
    transform ct (Json.obj pairs) = Except.error PyErr.keyError := by
  have hfl : getKey (setKey (setKey (setKey pairs "image_receiving_timestamp"
      (Json.str (ct ++ "Z"))) "image_scoring_timestamp" (Json.str (ct ++ "Z")))
      "image_store_delete_time" (Json.str (ct ++ "Z"))) "flattened_scores" = none := by
    rw [getKey_stamped _ _ _ _ _ (by decide) (by decide) (by decide)]
    exact h
  simp only [transform]
  rw [hfl]

theorem transform_ok_cases (ct : String) (pairs : List (String × Json)) (v : Json)
    (hv : getKey pairs "flattened_scores" = some v) :
    ∃ pairs', transform ct (Json.obj pairs) = Except.ok (Json.obj pairs') ∧
      getKey pairs' "image_receiving_timestamp" = some (Json.str (ct ++ "Z")) ∧
      getKey pairs' "image_scoring_timestamp" = some (Json.str (ct ++ "Z")) ∧
      getKey pairs' "image_store_delete_time" = some (Json.str (ct ++ "Z")) ∧
      (∀ k, k ≠ "image_receiving_timestamp" → k ≠ "image_scoring_timestamp" →
        k ≠ "image_store_delete_time" → k ≠ "flattened_scores" →
        getKey pairs' k = getKey pairs k) ∧
      ((∀ elems, v ≠ Json.arr elems) → getKey pairs' "flattened_scores" = some v) ∧
      (∀ elems, v = Json.arr elems →
        getKey pairs' "flattened_scores" = some (Json.str (dumps (Json.arr elems)))) := by
  have hfl : getKey (setKey (setKey (setKey pairs "image_receiving_timestamp"
      (Json.str (ct ++ "Z"))) "image_scoring_timestamp" (Json.str (ct ++ "Z")))
      "image_store_delete_time" (Json.str (ct ++ "Z"))) "flattened_scores" = some v := by
    rw [getKey_stamped _ _ _ _ _ (by decide) (by decide) (by decide)]
    exact hv
  have hfields := getKey_stamped_fields ct pairs
  cases v with
  | arr elems =>
    refine ⟨setKey (setKey (setKey (setKey pairs "image_receiving_timestamp"
      (Json.str (ct ++ "Z"))) "image_scoring_timestamp" (Json.str (ct ++ "Z")))
      "image_store_delete_time" (Json.str (ct ++ "Z"))) "flattened_scores"
      (Json.str (dumps (Json.arr elems))), ?_, ?_, ?_, ?_, ?_, ?_, ?_⟩
    · simp only [transform]
      rw [hfl]
    · rw [getKey_setKey_ne _ _ _ _ (by decide)]
      exact hfields.1
    · rw [getKey_setKey_ne _ _ _ _ (by decide)]
      exact hfields.2.1
    · rw [getKey_setKey_ne _ _ _ _ (by decide)]
      exact hfields.2.2
    · intro k h1 h2 h3 h4
      rw [getKey_setKey_ne _ _ _ _ (Ne.symm h4)]
      exact getKey_stamped pairs _ _ _ k h1 h2 h3
    · intro hne
      exact absurd rfl (hne elems)
    · intro elems' he
      injection he with he'
      subst he'
      rw [getKey_setKey_self]
  | null =>
    refine ⟨setKey (setKey (setKey pairs "image_receiving_timestamp"
      (Json.str (ct ++ "Z"))) "image_scoring_timestamp" (Json.str (ct ++ "Z")))
      "image_store_delete_time" (Json.str (ct ++ "Z")),
      by simp only [transform]; rw [hfl], hfields.1, hfields.2.1, hfields.2.2,
      fun k h1 h2 h3 _ => getKey_stamped pairs _ _ _ k h1 h2 h3,
      fun _ => hfl, fun elems he => absurd he (by simp)⟩
  | bool b =>
    refine ⟨setKey (setKey (setKey pairs "image_receiving_timestamp"
      (Json.str (ct ++ "Z"))) "image_scoring_timestamp" (Json.str (ct ++ "Z")))
      "image_store_delete_time" (Json.str (ct ++ "Z")),
      by simp only [transform]; rw [hfl], hfields.1, hfields.2.1, hfields.2.2,
      fun k h1 h2 h3 _ => getKey_stamped pairs _ _ _ k h1 h2 h3,
      fun _ => hfl, fun elems he => absurd he (by simp)⟩
  | num n =>
    refine ⟨setKey (setKey (setKey pairs "image_receiving_timestamp"
      (Json.str (ct ++ "Z"))) "image_scoring_timestamp" (Json.str (ct ++ "Z")))
      "image_store_delete_time" (Json.str (ct ++ "Z")),
      by simp only [transform]; rw [hfl], hfields.1, hfields.2.1, hfields.2.2,
      fun k h1 h2 h3 _ => getKey_stamped pairs _ _ _ k h1 h2 h3,
      fun _ => hfl, fun elems he => absurd he (by simp)⟩
  | str s =>
    refine ⟨setKey (setKey (setKey pairs "image_receiving_timestamp"
      (Json.str (ct ++ "Z"))) "image_scoring_timestamp" (Json.str (ct ++ "Z")))
      "image_store_delete_time" (Json.str (ct ++ "Z")),
      by simp only [transform]; rw [hfl], hfields.1, hfields.2.1, hfields.2.2,
      fun k h1 h2 h3 _ => getKey_stamped pairs _ _ _ k h1 h2 h3,
      fun _ => hfl, fun elems he => absurd he (by simp)⟩
  | obj inner =>
    refine ⟨setKey (setKey (setKey pairs "image_receiving_timestamp"
      (Json.str (ct ++ "Z"))) "image_scoring_timestamp" (Json.str (ct ++ "Z")))
      "image_store_delete_time" (Json.str (ct ++ "Z")),
      by simp only [transform]; rw [hfl], hfields.1, hfields.2.1, hfields.2.2,
      fun k h1 h2 h3 _ => getKey_stamped pairs _ _ _ k h1 h2 h3,
      fun _ => hfl, fun elems he => absurd he (by simp)⟩

theorem daemon_main_probe_fail (env : String → Option String) (outcomes : Nat → Bool)
    (fs : String → FileResult) (parse : String → Option Json) (ct : String)
    (cbFires : Bool) (deliveryErr : Option String)
    (h : (test_ckn_broker_connection outcomes 10 5).1 = false) :
    daemon_main env outcomes fs parse ct cbFires deliveryErr =
      (MainOutcome.exited 1, [MainStep.probeDone false]) := by
  simp [daemon_main, h]

theorem daemon_main_read_fail (env : String → Option String) (outcomes : Nat → Bool)
    (fs : String → FileResult) (parse : String → Option Json) (ct : String)
    (cbFires : Bool) (deliveryErr : Option String)
    (hp : (test_ckn_broker_connection outcomes 10 5).1 = true)
    (hr : (read_event_from_file fs parse "/app/event.json").1 = none) :
    daemon_main env outcomes fs parse ct cbFires deliveryErr =
      (MainOutcome.exited 1,
        [MainStep.probeDone true, MainStep.readFile "/app/event.json"]) := by
  cases hE : read_event_from_file fs parse "/app/event.json" with
  | mk f s =>
    rw [hE] at hr
    simp only at hr
    subst hr
    simp [daemon_main, hp, hE]

theorem daemon_main_read_null (env : String → Option String) (outcomes : Nat → Bool)
    (fs : String → FileResult) (parse : String → Option Json) (ct : String)
    (cbFires : Bool) (deliveryErr : Option String)
    (hp : (test_ckn_broker_connection outcomes 10 5).1 = true)
    (hr : (read_event_from_file fs parse "/app/event.json").1 = some Json.null) :
    daemon_main env outcomes fs parse ct cbFires deliveryErr =
      (MainOutcome.exited 1,
        [MainStep.probeDone true, MainStep.readFile "/app/event.json"]) := by
  cases hE : read_event_from_file fs parse "/app/event.json" with
  | mk f s =>
    rw [hE] at hr
    simp only at hr
    subst hr
    simp [daemon_main, hp, hE]

theorem daemon_main_crash (env : String → Option String) (outcomes : Nat → Bool)
    (fs : String → FileResult) (parse : String → Option Json) (ct : String)
    (cbFires : Bool) (deliveryErr : Option String) (j : Json) (e : PyErr)
    (hp : (test_ckn_broker_connection outcomes 10 5).1 = true)
    (hr : (read_event_from_file fs parse "/app/event.json").1 = some j)
    (ht : transform ct j = Except.error e) (hnn : j ≠ Json.null) :
    daemon_main env outcomes fs parse ct cbFires deliveryErr =
      (MainOutcome.crashed e,
        [MainStep.probeDone true, MainStep.readFile "/app/event.json"]) := by
  cases hE : read_event_from_file fs parse "/app/event.json" with
  | mk f s =>
    rw [hE] at hr
    simp only at hr
    subst hr
    cases j with
    | null => exact absurd rfl hnn
    | bool b => simp [daemon_main, hp, hE, ht]
    | num n => simp [daemon_main, hp, hE, ht]
    | str s2 => simp [daemon_main, hp, hE, ht]
    | arr elems => simp [daemon_main, hp, hE, ht]
    | obj pairs => simp [daemon_main, hp, hE, ht]

theorem daemon_main_success (env : String → Option String) (outcomes : Nat → Bool)
    (fs : String → FileResult) (parse : String → Option Json) (ct : String)
    (cbFires : Bool) (deliveryErr : Option String) (j j' : Json)
    (hp : (test_ckn_broker_connection outcomes 10 5).1 = true)
    (hr : (read_event_from_file fs parse "/app/event.json").1 = some j)
    (ht : transform ct j = Except.ok j') :
    daemon_main env outcomes fs parse ct cbFires deliveryErr =
      (MainOutcome.exited 0,
        [MainStep.probeDone true, MainStep.readFile "/app/event.json",
         MainStep.produce (KAFKA_TOPIC env) (dumps j'), MainStep.flushCall 1] ++
        (if cbFires then
          [MainStep.cb (delivery_report deliveryErr (KAFKA_TOPIC env))]
        else [])) := by
  have hnn : j ≠ Json.null := by
    intro hj
    subst hj
    rw [transform_typeError ct Json.null (fun pairs h => Json.noConfusion h)] at ht
    exact absurd ht (by simp)
  cases hE : read_event_from_file fs parse "/app/event.json" with
  | mk f s =>
    rw [hE] at hr
    simp only at hr
    subst hr
    cases j with
    | null => exact absurd rfl hnn
    | bool b => simp [daemon_main, hp, hE, ht]
    | num n => simp [daemon_main, hp, hE, ht]
    | str s2 => simp [daemon_main, hp, hE, ht]
    | arr elems => simp [daemon_main, hp, hE, ht]
    | obj pairs => simp [daemon_main, hp, hE, ht]

/-- Claim C2: `read_event_from_file` returns `none` exactly when the file is
absent or its content is not valid JSON; the absent case logs the
file-not-found error, the invalid-JSON case logs the invalid-JSON error, and
otherwise the function returns the parsed structure with nothing logged. -/
theorem read_event_from_file_spec (fs : String → FileResult)
    (parse : String → Option Json) (file_path : String) :
    ((read_event_from_file fs parse file_path).1 = none ↔
      fs file_path = FileResult.absent ∨
        ∃ s, fs file_path = FileResult.content s ∧ parse s = none)
    ∧ (fs file_path = FileResult.absent →
      read_event_from_file fs parse file_path =
        (none, some (ReadLog.fileNotFound file_path)))
    ∧ (∀ s, fs file_path = FileResult.content s → parse s = none →
      read_event_from_file fs parse file_path =
        (none, some (ReadLog.invalidJson file_path)))
    ∧ (∀ s j, fs file_path = FileResult.content s → parse s = some j →
      read_event_from_file fs parse file_path = (some j, none)) := by
  cases hE : fs file_path with
  | absent =>
    refine ⟨?_, fun _ => ?_, fun s hs hp => ?_, fun s j hs hp => ?_⟩
    · simp [read_event_from_file, hE]
    · simp [read_event_from_file, hE]
    · exact absurd hs (by simp)
    · exact absurd hs (by simp)
  | content s0 =>
    cases hP : parse s0 with
    | none =>
      refine ⟨?_, fun ha => ?_, fun s hs hp => ?_, fun s j hs hp => ?_⟩
      · exact iff_of_true (by simp [read_event_from_file, hE, hP])
          (Or.inr ⟨s0, rfl, hP⟩)
      · exact absurd ha (by simp)
      · injection hs with hs'
        subst hs'
        simp [read_event_from_file, hE, hP]
      · injection hs with hs'
        subst hs'
        rw [hP] at hp
        exact absurd hp (by simp)
    | some j0 =>
      refine ⟨?_, fun ha => ?_, fun s hs hp => ?_, fun s j hs hp => ?_⟩
      · constructor
        · intro hn
          simp [read_event_from_file, hE, hP] at hn
        · rintro (ha | ⟨s, hs, hp⟩)
          · exact absurd ha (by simp)
          · injection hs with hs'
            subst hs'
            rw [hP] at hp
            exact absurd hp (by simp)
      · exact absurd ha (by simp)
      · injection hs with hs'
        subst hs'
        rw [hP] at hp
        exact absurd hp (by simp)
      · injection hs with hs'
        subst hs'
        rw [hP] at hp
        injection hp with hp'
        subst hp'
        simp [read_event_from_file, hE, hP]

/-- Witness for C2: on a filesystem where the event file is absent, the
loader returns `none` and logs the file-not-found error. -/
theorem read_event_from_file_spec_witness :
    read_event_from_file (fun _ => FileResult.absent) (fun _ => none)
      "/app/event.json" =
      (none, some (ReadLog.fileNotFound "/app/event.json")) :=
  (read_event_from_file_spec (fun _ => FileResult.absent) (fun _ => none)
    "/app/event.json").2.1 rfl

/-- Claim C3: on the success path the published payload is the encoding of
the transformed event, in which the three fields `image_receiving_timestamp`,
`image_scoring_timestamp` and `image_store_delete_time` are all equal to the
single clock reading `ct` taken when the transformer ran, suffixed with a
trailing literal `Z`. -/
theorem published_timestamps_spec (env : String → Option String)
    (outcomes : Nat → Bool) (fs : String → FileResult)
    (parse : String → Option Json) (ct : String) (cbFires : Bool)
    (deliveryErr : Option String) (pairs pairs' : List (String × Json))
    (hp : (test_ckn_broker_connection outcomes 10 5).1 = true)
    (hr : (read_event_from_file fs parse "/app/event.json").1 = some (Json.obj pairs))
    (ht : transform ct (Json.obj pairs) = Except.ok (Json.obj pairs')) :
    MainStep.produce (KAFKA_TOPIC env) (dumps (Json.obj pairs')) ∈
      (daemon_main env outcomes fs parse ct cbFires deliveryErr).2
    ∧ getKey pairs' "image_receiving_timestamp" = some (Json.str (ct ++ "Z"))
    ∧ getKey pairs' "image_scoring_timestamp" = some (Json.str (ct ++ "Z"))
    ∧ getKey pairs' "image_store_delete_time" = some (Json.str (ct ++ "Z")) := by
  have hvex : ∃ v, getKey pairs "flattened_scores" = some v := by
    cases hfl : getKey pairs "flattened_scores" with
    | none =>
      rw [transform_keyError ct pairs hfl] at ht
      exact absurd ht (by simp)
    | some v => exact ⟨v, rfl⟩
  obtain ⟨v, hv⟩ := hvex
  obtain ⟨q, hq, f1, f2, f3, _, _, _⟩ := transform_ok_cases ct pairs v hv
  rw [hq] at ht
  injection ht with ht'
  injection ht' with ht''
  subst ht''
  refine ⟨?_, f1, f2, f3⟩
  rw [daemon_main_success env outcomes fs parse ct cbFires deliveryErr
    (Json.obj pairs) (Json.obj q) hp hr hq]
  simp

/-- Witness for C3: a concrete event whose `flattened_scores` is already a
string gets all three timestamp fields set to the clock reading `"T"` with a
trailing `Z`. -/
theorem published_timestamps_spec_witness :
    getKey [("flattened_scores", Json.str "[]"),
      ("image_receiving_timestamp", Json.str ("T" ++ "Z")),
      ("image_scoring_timestamp", Json.str ("T" ++ "Z")),
      ("image_store_delete_time", Json.str ("T" ++ "Z"))]
      "image_receiving_timestamp" = some (Json.str ("T" ++ "Z")) := by
  have h := published_timestamps_spec (fun _ => none) (fun _ => true)
    (fun _ => FileResult.content "e")
    (fun _ => some (Json.obj [("flattened_scores", Json.str "[]")])) "T" false none
    [("flattened_scores", Json.str "[]")]
    [("flattened_scores", Json.str "[]"),
     ("image_receiving_timestamp", Json.str ("T" ++ "Z")),
     ("image_scoring_timestamp", Json.str ("T" ++ "Z")),
     ("image_store_delete_time", Json.str ("T" ++ "Z"))]
    (by decide) rfl rfl
  exact h.2.1

/-- Claim C4: when the transformation succeeds on an event whose
`flattened_scores` field is a list, the resulting event's `flattened_scores`
field is the JSON-string encoding of that list; when the field is present but
not a list (in particular a string), it is passed through unchanged. -/
theorem transform_flattened_scores_spec (ct : String)
    (pairs pairs' : List (String × Json)) (v : Json)
    (hv : getKey pairs "flattened_scores" = some v)
    (ht : transform ct (Json.obj pairs) = Except.ok (Json.obj pairs')) :
    (∀ elems, v = Json.arr elems →
      getKey pairs' "flattened_scores" = some (Json.str (dumps (Json.arr elems))))
    ∧ ((∀ elems, v ≠ Json.arr elems) →
      getKey pairs' "flattened_scores" = some v) := by
  obtain ⟨q, hq, _, _, _, _, hnon, harr⟩ := transform_ok_cases ct pairs v hv
  rw [hq] at ht
  injection ht with ht'
  injection ht' with ht''
  subst ht''
  exact ⟨harr, hnon⟩

/-- Witness for C4: a concrete event whose `flattened_scores` is the list
`[1]` ends up with the field equal to the JSON-string encoding of that
list. -/
theorem transform_flattened_scores_spec_witness :
    getKey [("flattened_scores", Json.str (dumps (Json.arr [Json.num 1]))),
      ("image_receiving_timestamp", Json.str ("T" ++ "Z")),
      ("image_scoring_timestamp", Json.str ("T" ++ "Z")),
      ("image_store_delete_time", Json.str ("T" ++ "Z"))]
      "flattened_scores" = some (Json.str (dumps (Json.arr [Json.num 1]))) := by
  have h := transform_flattened_scores_spec "T"
    [("flattened_scores", Json.arr [Json.num 1])]
    [("flattened_scores", Json.str (dumps (Json.arr [Json.num 1]))),
     ("image_receiving_timestamp", Json.str ("T" ++ "Z")),
     ("image_scoring_timestamp", Json.str ("T" ++ "Z")),
     ("image_store_delete_time", Json.str ("T" ++ "Z"))]
    (Json.arr [Json.num 1]) rfl rfl
  exact h.1 [Json.num 1] rfl

/-- Claim C5: when every one of the 5 probe attempts fails, the process exits
with code 1 and the event file is never read — no `readFile` step occurs in
the execution trace. -/
theorem daemon_probe_fail_no_read (env : String → Option String)
    (outcomes : Nat → Bool) (fs : String → FileResult)
    (parse : String → Option Json) (ct : String) (cbFires : Bool)
    (deliveryErr : Option String)
    (h : ∀ i, i < 5 → outcomes i = false) :
    (daemon_main env outcomes fs parse ct cbFires deliveryErr).1 =
      MainOutcome.exited 1
    ∧ ∀ p, MainStep.readFile p ∉
      (daemon_main env outcomes fs parse ct cbFires deliveryErr).2 := by
  have hfalse : (test_ckn_broker_connection outcomes 10 5).1 = false :=
    (probeLoop_attempts_all_fail outcomes 10 5 0
      (fun k hk => by simpa using h k hk)).1
  rw [daemon_main_probe_fail env outcomes fs parse ct cbFires deliveryErr hfalse]
  refine ⟨rfl, fun p hmem => ?_⟩
  simp at hmem

/-- Witness for C5: with an always-failing broker the concrete run exits 1
and its trace contains no read of `/app/event.json`. -/
theorem daemon_probe_fail_no_read_witness :
    (daemon_main (fun _ => none) (fun _ => false) (fun _ => FileResult.absent)
      (fun _ => none) "T" false none).1 = MainOutcome.exited 1
    ∧ MainStep.readFile "/app/event.json" ∉
      (daemon_main (fun _ => none) (fun _ => false) (fun _ => FileResult.absent)
        (fun _ => none) "T" false none).2 := by
  have h := daemon_probe_fail_no_read (fun _ => none) (fun _ => false)
    (fun _ => FileResult.absent) (fun _ => none) "T" false none (by decide)
  exact ⟨h.1, h.2 "/app/event.json"⟩

/-- Claim C6: exit code 1 when the broker probe fails, exit code 1 when the
event file is missing or invalid, exit code 0 on the success path; and the
process outcome does not depend on whether the delivery callback fires during
the flush nor on the delivery error it reports. -/
theorem daemon_exit_codes_spec (env : String → Option String)
    (outcomes : Nat → Bool) (fs : String → FileResult)
    (parse : String → Option Json) (ct : String) (cb cb' : Bool)
    (d d' : Option String) :
    ((test_ckn_broker_connection outcomes 10 5).1 = false →
      (daemon_main env outcomes fs parse ct cb d).1 = MainOutcome.exited 1)
    ∧ ((test_ckn_broker_connection outcomes 10 5).1 = true →
      (read_event_from_file fs parse "/app/event.json").1 = none →
      (daemon_main env outcomes fs parse ct cb d).1 = MainOutcome.exited 1)
    ∧ (∀ j j', (test_ckn_broker_connection outcomes 10 5).1 = true →
      (read_event_from_file fs parse "/app/event.json").1 = some j →
      transform ct j = Except.ok j' →
      (daemon_main env outcomes fs parse ct cb d).1 = MainOutcome.exited 0)
    ∧ (daemon_main env outcomes fs parse ct cb d).1 =
      (daemon_main env outcomes fs parse ct cb' d').1 := by
  refine ⟨?_, ?_, ?_, ?_⟩
  · intro h
    rw [daemon_main_probe_fail _ _ _ _ _ _ _ h]
  · intro hp hr
    rw [daemon_main_read_fail _ _ _ _ _ _ _ hp hr]
  · intro j j' hp hr ht
    rw [daemon_main_success _ _ _ _ _ _ _ _ _ hp hr ht]
  · cases hb : (test_ckn_broker_connection outcomes 10 5).1 with
    | false =>
      rw [daemon_main_probe_fail _ _ _ _ _ cb d hb,
        daemon_main_probe_fail _ _ _ _ _ cb' d' hb]
    | true =>
      cases hE : (read_event_from_file fs parse "/app/event.json").1 with
      | none =>
        rw [daemon_main_read_fail _ _ _ _ _ cb d hb hE,
          daemon_main_read_fail _ _ _ _ _ cb' d' hb hE]
      | some j =>
        by_cases hj : j = Json.null
        · subst hj
          rw [daemon_main_read_null _ _ _ _ _ cb d hb hE,
            daemon_main_read_null _ _ _ _ _ cb' d' hb hE]
        · cases ht : transform ct j with
          | error e =>
            rw [daemon_main_crash _ _ _ _ _ cb d _ _ hb hE ht hj,
              daemon_main_crash _ _ _ _ _ cb' d' _ _ hb hE ht hj]
          | ok j' =>
            rw [daemon_main_success _ _ _ _ _ cb d _ _ hb hE ht,
              daemon_main_success _ _ _ _ _ cb' d' _ _ hb hE ht]

/-- Witness for C6: a concrete successful run (broker reachable, valid event
file) exits with code 0. -/
theorem daemon_exit_codes_spec_witness :
    (daemon_main (fun _ => none) (fun _ => true) (fun _ => FileResult.content "e")
      (fun _ => some (Json.obj [("flattened_scores", Json.str "[]")]))
      "T" false none).1 = MainOutcome.exited 0 := by
  have h := daemon_exit_codes_spec (fun _ => none) (fun _ => true)
    (fun _ => FileResult.content "e")
    (fun _ => some (Json.obj [("flattened_scores", Json.str "[]")])) "T"
    false false none none
  exact h.2.2.1 (Json.obj [("flattened_scores", Json.str "[]")])
    (Json.obj [("flattened_scores", Json.str "[]"),
      ("image_receiving_timestamp", Json.str ("T" ++ "Z")),
      ("image_scoring_timestamp", Json.str ("T" ++ "Z")),
      ("image_store_delete_time", Json.str ("T" ++ "Z"))])
    (by decide) rfl rfl

/-- Claim C7: the published payload is the JSON encoding of the transformed
event, and the transformation changes at most the three timestamp fields and
`flattened_scores`: every other key of the loaded event keeps exactly the
value it was loaded with. -/
theorem daemon_publish_frame_spec (env : String → Option String)
    (outcomes : Nat → Bool) (fs : String → FileResult)
    (parse : String → Option Json) (ct : String) (cbFires : Bool)
    (deliveryErr : Option String) (pairs pairs' : List (String × Json))
    (hp : (test_ckn_broker_connection outcomes 10 5).1 = true)
    (hr : (read_event_from_file fs parse "/app/event.json").1 = some (Json.obj pairs))
    (ht : transform ct (Json.obj pairs) = Except.ok (Json.obj pairs')) :
    MainStep.produce (KAFKA_TOPIC env) (dumps (Json.obj pairs')) ∈
      (daemon_main env outcomes fs parse ct cbFires deliveryErr).2
    ∧ ∀ k, k ≠ "image_receiving_timestamp" → k ≠ "image_scoring_timestamp" →
      k ≠ "image_store_delete_time" → k ≠ "flattened_scores" →
      getKey pairs' k = getKey pairs k := by
  have hvex : ∃ v, getKey pairs "flattened_scores" = some v := by
    cases hfl : getKey pairs "flattened_scores" with
    | none =>
      rw [transform_keyError ct pairs hfl] at ht
      exact absurd ht (by simp)
    | some v => exact ⟨v, rfl⟩
  obtain ⟨v, hv⟩ := hvex
  obtain ⟨q, hq, _, _, _, hframe, _, _⟩ := transform_ok_cases ct pairs v hv
  rw [hq] at ht
  injection ht with ht'
  injection ht' with ht''
  subst ht''
  refine ⟨?_, hframe⟩
  rw [daemon_main_success env outcomes fs parse ct cbFires deliveryErr
    (Json.obj pairs) (Json.obj q) hp hr hq]
  simp

/-- Witness for C7: in a concrete run the extra key `device` of the loaded
event is published with exactly the loaded value. -/
theorem daemon_publish_frame_spec_witness :
    getKey [("flattened_scores", Json.str "[]"), ("device", Json.str "d"),
      ("image_receiving_timestamp", Json.str ("T" ++ "Z")),
      ("image_scoring_timestamp", Json.str ("T" ++ "Z")),
      ("image_store_delete_time", Json.str ("T" ++ "Z"))] "device" =
      getKey [("flattened_scores", Json.str "[]"), ("device", Json.str "d")]
        "device" := by
  have h := daemon_publish_frame_spec (fun _ => none) (fun _ => true)
    (fun _ => FileResult.content "e")
    (fun _ => some (Json.obj [("flattened_scores", Json.str "[]"),
      ("device", Json.str "d")])) "T" false none
    [("flattened_scores", Json.str "[]"), ("device", Json.str "d")]
    [("flattened_scores", Json.str "[]"), ("device", Json.str "d"),
     ("image_receiving_timestamp", Json.str ("T" ++ "Z")),
     ("image_scoring_timestamp", Json.str ("T" ++ "Z")),
     ("image_store_delete_time", Json.str ("T" ++ "Z"))]
    (by decide) rfl rfl
  exact h.2 "device" (by decide) (by decide) (by decide) (by decide)

/-- Claim C9 (what the code actually does): `setup_logging` installs the file
handler at level `INFO` and a console `StreamHandler()` with no stream
argument, which therefore writes to standard error, not standard output,
contradicting the code's own comment. -/
theorem setup_logging_console_stderr (env : String → Option String) :
    (setup_logging env).handlers.map Handler.sink =
      [Sink.file (CKN_LOG_FILE env), Sink.stream PyStream.stderr]
    ∧ (setup_logging env).handlers.map Handler.level = [INFO, INFO]
    ∧ (setup_logging env).rootLevel = DEBUG
    ∧ Sink.stream PyStream.stderr ≠ Sink.stream PyStream.stdout :=
  ⟨rfl, rfl, rfl, by decide⟩

/-- Counterexample to claim C10 as stated: an event file containing the
valid JSON document `null` parses successfully to a non-object, yet the
program raises no uncaught exception — Python's `json.load` returns the same
`None` the `event is None` check tests for, so the run exits 1 through the
documented logged failure path instead of crashing. -/
theorem daemon_transform_presupposition_cex :
    (daemon_main (fun _ => none) (fun _ => true)
      (fun _ => FileResult.content "null") (fun _ => some Json.null)
      "T" false none).1 = MainOutcome.exited 1
    ∧ (daemon_main (fun _ => none) (fun _ => true)
      (fun _ => FileResult.content "null") (fun _ => some Json.null)
      "T" false none).1 ≠ MainOutcome.crashed PyErr.typeError
    ∧ (daemon_main (fun _ => none) (fun _ => true)
      (fun _ => FileResult.content "null") (fun _ => some Json.null)
      "T" false none).1 ≠ MainOutcome.crashed PyErr.keyError := by
  decide

/-- Claim C10 (amended): after a successful probe and a successful JSON
parse, an event parsing to the JSON document `null` is caught by the
`event is None` check — `json.load` maps `null` to the loader's own `None`
sentinel — and the run exits 1 through the documented path; every other
non-object event makes the transformation raise an uncaught `TypeError`, an
object without the `flattened_scores` key an uncaught `KeyError`, and a
crash outcome is distinct from every documented `sys.exit` outcome. -/
theorem daemon_transform_presupposition (env : String → Option String)
    (outcomes : Nat → Bool) (fs : String → FileResult)
    (parse : String → Option Json) (ct : String) (cbFires : Bool)
    (deliveryErr : Option String) (j : Json)
    (hp : (test_ckn_broker_connection outcomes 10 5).1 = true)
    (hr : (read_event_from_file fs parse "/app/event.json").1 = some j) :
    (j = Json.null →
      (daemon_main env outcomes fs parse ct cbFires deliveryErr).1 =
        MainOutcome.exited 1)
    ∧ (j ≠ Json.null → (∀ pairs, j ≠ Json.obj pairs) →
      (daemon_main env outcomes fs parse ct cbFires deliveryErr).1 =
        MainOutcome.crashed PyErr.typeError)
    ∧ (∀ pairs, j = Json.obj pairs →
      getKey pairs "flattened_scores" = none →
      (daemon_main env outcomes fs parse ct cbFires deliveryErr).1 =
        MainOutcome.crashed PyErr.keyError)
    ∧ (∀ e c, MainOutcome.crashed e ≠ MainOutcome.exited c) := by
  refine ⟨?_, ?_, ?_, fun e c h => MainOutcome.noConfusion h⟩
  · intro hj
    subst hj
    rw [daemon_main_read_null _ _ _ _ _ _ _ hp hr]
  · intro hnn hno
    rw [daemon_main_crash _ _ _ _ _ _ _ _ _ hp hr
      (transform_typeError ct j hno) hnn]
  · intro pairs hobj hnone
    subst hobj
    rw [daemon_main_crash _ _ _ _ _ _ _ _ _ hp hr
      (transform_keyError ct pairs hnone) (fun h => Json.noConfusion h)]

/-- Witness for the amended C10: a run whose event file parses to the JSON
array `[]` (non-null, non-object) crashes with `TypeError` during
transformation. -/
theorem daemon_transform_presupposition_witness :
    (daemon_main (fun _ => none) (fun _ => true) (fun _ => FileResult.content "e")
      (fun _ => some (Json.arr [])) "T" false none).1 =
      MainOutcome.crashed PyErr.typeError := by
  have h := daemon_transform_presupposition (fun _ => none) (fun _ => true)
    (fun _ => FileResult.content "e") (fun _ => some (Json.arr [])) "T" false none
    (Json.arr []) (by decide) rfl
  exact h.2.1 (fun hnull => Json.noConfusion hnull)
    (fun pairs hpairs => Json.noConfusion hpairs)

end CknDaemon
